import Mathlib

/-!
Verification of the selection-state synchronization logic of the bar-chart
visual in `src/visual.ts` (class `Visual`), as a shallow embedding.

The identifier type of the host (`ISelectionId`) is opaque; it is modelled as
a type parameter `σ` together with an injected containment predicate
`includes : σ → σ → Bool` standing for `currentSelectionId.includes(selectionId)`.

A rendered bar (`rect` of class `bar`) is modelled as a `BarNode`: its bound
datum (`IDatapoint`), its `display` style, and its `opacity` style (`none`
when the style was never set, as after construction in `update`).

The document's bars form a `List (BarNode σ)`; a d3 selection of bar nodes
(such as the `barSelection` argument) is a list of indices into that list,
and `selectAll(".bar")` denotes all indices.  `undefined` arguments are
modelled by `Option`.
-/

/-- The `IDatapoint` interface of `visual.ts`: category label, numeric value,
and the host-issued selection identifier. -/
structure IDatapoint (σ : Type) where
  country : String
  value : Int
  selectionId : σ
deriving DecidableEq

/-- A rendered `rect.bar` node: its bound datapoint and its style properties
(`display` set during construction, `opacity` set only by the synchronizer;
`none` means the style is absent). -/
structure BarNode (σ : Type) where
  datapoint : IDatapoint σ
  display : String
  opacity : Option ℚ
deriving DecidableEq

/-- In-place update of the node at index `n`, as d3's `select(e[i])` followed
by a style mutation: all other nodes are untouched. -/
def modifyIdx {α : Type} : List α → Nat → (α → α) → List α
  | [], _, _ => []
  | a :: as, 0, f => f a :: as
  | a :: as, n + 1, f => a :: modifyIdx as n f

/-- `Visual.syncSelectionState(barSelection, selectionIds)`.

Source (`src/visual.ts`, lines 151-170):
```
private syncSelectionState(barSelection, selectionIds: ISelectionId[]) {
  if (!barSelection || !selectionIds) { return; }
  if (selectionIds.length === 0) {
    selectAll(".bar").style("opacity", 1);
    return;
  }
  barSelection.each((datapoint: IDatapoint, i, e) => {
    const selectionId = datapoint.selectionId;
    const isSelected = selectionIds.some((currentSelectionId) => {
      return currentSelectionId.includes(selectionId);
    });
    const opacity = isSelected ? 1 : 0.5;
    const currentBar = select(e[i]);
    currentBar.style("opacity", opacity);
  });
}
```
`document` is the mutable render tree (all `.bar` nodes); the function
returns its state after the call.  Note that the empty-selection branch
writes through the ambient `selectAll(".bar")`, i.e. the whole document,
not through `barSelection`. -/
def syncSelectionState {σ : Type} (includes : σ → σ → Bool)
    (document : List (BarNode σ))
    (barSelection : Option (List Nat))
    (selectionIds : Option (List σ)) : List (BarNode σ) :=
  match barSelection, selectionIds with
  | none, _ => document
  | some _, none => document
  | some sel, some ids =>
    if ids.length = 0 then
      document.map (fun b => ⟨b.datapoint, b.display, some 1⟩)
    else
      sel.foldl (fun doc i =>
        modifyIdx doc i (fun currentBar =>
          let selectionId := currentBar.datapoint.selectionId
          let isSelected := ids.any (fun currentSelectionId =>
            includes currentSelectionId selectionId)
          let opacity : ℚ := if isSelected then 1 else 1 / 2
          ⟨currentBar.datapoint, currentBar.display, some opacity⟩)) document

/-- The per-node mutation performed by the `each` callback of the non-empty
branch of `syncSelectionState`. -/
def barWrite {σ : Type} (includes : σ → σ → Bool) (ids : List σ)
    (b : BarNode σ) : BarNode σ :=
  ⟨b.datapoint, b.display,
    some (if ids.any (fun currentSelectionId =>
      includes currentSelectionId b.datapoint.selectionId) then (1 : ℚ) else 1 / 2)⟩

/-- `Visual.update(options)`, restricted to its effect on the render tree
(`src/visual.ts`, lines 73-116): `selectAll("*").remove()` discards the
previous document, then one `rect.bar` is appended per category with its
datapoint bound, the `display` style from the `showBars` setting, and no
`opacity` style.  `csid` stands for
`createSelectionIdBuilder().withCategory(categories[0], categoryIndex)`. -/
def update {σ : Type} (oldDocument : List (BarNode σ)) (csid : Nat → σ)
    (countries : List String) (revenue : List Int)
    (showBars : Bool) : List (BarNode σ) :=
  countries.enum.map (fun p =>
    ⟨⟨p.2, revenue.getD p.1 0, csid p.1⟩,
     if showBars then "block" else "none", none⟩)

theorem modifyIdx_get?_self {α : Type} (l : List α) (n : Nat) (f : α → α) :
    (modifyIdx l n f).get? n = (l.get? n).map f := by
  induction l generalizing n with
  | nil => simp [modifyIdx]
  | cons a as ih =>
    cases n with
    | zero => simp [modifyIdx]
    | succ m => simpa [modifyIdx] using ih m

theorem modifyIdx_get?_ne {α : Type} (l : List α) (m n : Nat) (f : α → α)
    (h : m ≠ n) : (modifyIdx l n f).get? m = l.get? m := by
  induction l generalizing m n with
  | nil => simp [modifyIdx]
  | cons a as ih =>
    cases n with
    | zero =>
      cases m with
      | zero => exact absurd rfl h
      | succ k => simp [modifyIdx]
    | succ n' =>
      cases m with
      | zero => simp [modifyIdx]
      | succ k => simpa [modifyIdx] using ih k n' (fun hk => h (by rw [hk]))

theorem barWrite_idem {σ : Type} (includes : σ → σ → Bool) (ids : List σ)
    (b : BarNode σ) :
    barWrite includes ids (barWrite includes ids b) = barWrite includes ids b := rfl

/-- Unfolding of the defined-inputs case of `syncSelectionState` in terms of
`barWrite`. -/
theorem syncSelectionState_some_some {σ : Type} (includes : σ → σ → Bool)
    (document : List (BarNode σ)) (sel : List Nat) (ids : List σ) :
    syncSelectionState includes document (some sel) (some ids) =
      if ids.length = 0 then
        document.map (fun b => ⟨b.datapoint, b.display, some 1⟩)
      else
        sel.foldl (fun doc i => modifyIdx doc i (barWrite includes ids)) document := rfl

/-- Characterization of the `each` loop: a node at an index visited by the
selection ends up rewritten by `barWrite` (computed from its own datapoint,
which no step changes), every other node is untouched. -/
theorem foldl_barWrite_get? {σ : Type} (includes : σ → σ → Bool) (ids : List σ)
    (sel : List Nat) (acc : List (BarNode σ)) (j : Nat) :
    (sel.foldl (fun doc i => modifyIdx doc i (barWrite includes ids)) acc).get? j =
      if j ∈ sel then (acc.get? j).map (barWrite includes ids) else acc.get? j := by
  induction sel generalizing acc with
  | nil => simp
  | cons k sel ih =>
    rw [List.foldl_cons, ih]
    by_cases hj : j ∈ sel
    · rw [if_pos hj, if_pos (List.mem_cons_of_mem k hj)]
      by_cases hk : j = k
      · subst hk
        rw [modifyIdx_get?_self]
        cases acc.get? j with
        | none => rfl
        | some b => simp [barWrite_idem]
      · rw [modifyIdx_get?_ne _ _ _ _ hk]
    · by_cases hk : j = k
      · subst hk
        rw [if_neg hj, if_pos (List.mem_cons_self j sel), modifyIdx_get?_self]
      · have hnot : j ∉ k :: sel := by
          simp [List.mem_cons, hk, hj]
        rw [if_neg hj, if_neg hnot]
        exact modifyIdx_get?_ne _ _ _ _ hk

/-- C1: for defined marks and a non-empty selection set, after
`syncSelectionState` a mark of the passed collection is fully opaque
(opacity 1) iff some identifier of the selection set contains the mark's
own identifier (per the injected `includes` predicate), and otherwise its
opacity is the dimmed value 1/2. -/
theorem sync_nonempty_containment {σ : Type} (includes : σ → σ → Bool)
    (document : List (BarNode σ)) (sel : List Nat) (ids : List σ)
    (j : Nat) (b : BarNode σ)
    (hne : ids ≠ []) (hj : j ∈ sel) (hb : document.get? j = some b) :
    ∃ c, (syncSelectionState includes document (some sel) (some ids)).get? j = some c ∧
      (c.opacity = some 1 ↔ ∃ s ∈ ids, includes s b.datapoint.selectionId = true) ∧
      ((¬ ∃ s ∈ ids, includes s b.datapoint.selectionId = true) →
        c.opacity = some (1 / 2)) := by
  rw [syncSelectionState_some_some, if_neg (by simpa using hne),
    foldl_barWrite_get?, if_pos hj, hb]
  refine ⟨barWrite includes ids b, rfl, ?_, ?_⟩
  · by_cases h : ids.any (fun s => includes s b.datapoint.selectionId) = true
    · have hop : (barWrite includes ids b).opacity = some 1 := by
        simp [barWrite, h]
      rw [hop]
      simpa using List.any_eq_true.mp h
    · have hop : (barWrite includes ids b).opacity = some (1 / 2) := by
        simp only [barWrite, if_neg h]
      rw [hop]
      constructor
      · intro hq
        exact absurd (Option.some.inj hq) (by norm_num)
      · intro hex
        exact absurd (List.any_eq_true.mpr hex) h
  · intro hnex
    have h : ¬ ids.any (fun s => includes s b.datapoint.selectionId) = true :=
      fun ha => hnex (List.any_eq_true.mp ha)
    simp only [barWrite, if_neg h]

/-- Witness for C1 at a concrete input: two bars with identifiers 0 and 1,
selection set `[0]`, equality as containment; the first bar. -/
theorem sync_nonempty_containment_witness :
    ∃ c, (syncSelectionState (fun a b : Nat => a == b)
        [⟨⟨"A", 10, 0⟩, "block", none⟩, ⟨⟨"B", 20, 1⟩, "block", none⟩]
        (some [0, 1]) (some [0])).get? 0 = some c ∧
      (c.opacity = some 1 ↔ ∃ s ∈ ([0] : List Nat), (s == (0 : Nat)) = true) ∧
      ((¬ ∃ s ∈ ([0] : List Nat), (s == (0 : Nat)) = true) →
        c.opacity = some (1 / 2)) :=
  sync_nonempty_containment (fun a b : Nat => a == b)
    [⟨⟨"A", 10, 0⟩, "block", none⟩, ⟨⟨"B", 20, 1⟩, "block", none⟩]
    [0, 1] [0] 0 ⟨⟨"A", 10, 0⟩, "block", none⟩ (by decide) (by decide) rfl

/-- C2: for defined marks and the empty selection set, `syncSelectionState`
gives every mark of the passed collection full opacity 1, whatever its
prior emphasis state was. -/
theorem sync_empty_full_opacity {σ : Type} (includes : σ → σ → Bool)
    (document : List (BarNode σ)) (sel : List Nat) (j : Nat) (b : BarNode σ)
    (hj : j ∈ sel) (hb : document.get? j = some b) :
    (syncSelectionState includes document (some sel) (some ([] : List σ))).get? j =
      some ⟨b.datapoint, b.display, some 1⟩ := by
  have hmap : syncSelectionState includes document (some sel) (some ([] : List σ)) =
      document.map (fun b => ⟨b.datapoint, b.display, some 1⟩) := rfl
  rw [hmap, List.get?_map, hb]
  rfl

/-- Witness for C2 at a concrete input. -/
theorem sync_empty_full_opacity_witness :
    (syncSelectionState (fun a b : Nat => a == b)
        [⟨⟨"A", 10, 0⟩, "block", some (1 / 2)⟩]
        (some [0]) (some ([] : List Nat))).get? 0 =
      some ⟨⟨"A", 10, 0⟩, "block", some 1⟩ :=
  sync_empty_full_opacity (fun a b : Nat => a == b)
    [⟨⟨"A", 10, 0⟩, "block", some (1 / 2)⟩] [0] 0
    ⟨⟨"A", 10, 0⟩, "block", some (1 / 2)⟩ (by decide) rfl

/-- C3: with an undefined mark collection or an undefined selection set,
`syncSelectionState` is a no-op: it returns (no error, being total) and the
document is exactly as before the call. -/
theorem sync_noop_on_missing {σ : Type} (includes : σ → σ → Bool)
    (document : List (BarNode σ)) (bs : Option (List Nat)) (ids : Option (List σ)) :
    syncSelectionState includes document none ids = document ∧
    syncSelectionState includes document bs none = document := by
  refine ⟨rfl, ?_⟩
  cases bs <;> rfl

/-- C4: on the empty-selection branch `syncSelectionState` resets opacity 1
on every `.bar` node of the whole document (the ambient `selectAll(".bar")`),
not only the nodes of its first argument, and the result is the same for any
two defined first arguments. -/
theorem sync_empty_global_reset {σ : Type} (includes : σ → σ → Bool)
    (document : List (BarNode σ)) (sel1 sel2 : List Nat) :
    syncSelectionState includes document (some sel1) (some ([] : List σ)) =
      document.map (fun b => ⟨b.datapoint, b.display, some 1⟩) ∧
    syncSelectionState includes document (some sel1) (some ([] : List σ)) =
      syncSelectionState includes document (some sel2) (some ([] : List σ)) :=
  ⟨rfl, rfl⟩

/-- C5: `syncSelectionState` is idempotent: running it twice with the same
defined pair of mark collection and selection set leaves the document as
after one run. -/
theorem sync_idempotent {σ : Type} (includes : σ → σ → Bool)
    (document : List (BarNode σ)) (sel : List Nat) (ids : List σ) :
    syncSelectionState includes
        (syncSelectionState includes document (some sel) (some ids))
        (some sel) (some ids) =
      syncSelectionState includes document (some sel) (some ids) := by
  rw [syncSelectionState_some_some, syncSelectionState_some_some]
  by_cases h : ids.length = 0
  · rw [if_pos h, if_pos h, List.map_map]
    rfl
  · rw [if_neg h, if_neg h]
    apply List.ext_get?_iff.mpr
    intro j
    rw [foldl_barWrite_get?, foldl_barWrite_get?]
    by_cases hj : j ∈ sel
    · rw [if_pos hj, if_pos hj, Option.map_map]
      cases document.get? j with
      | none => rfl
      | some b => simp [Function.comp, barWrite_idem]
    · rw [if_neg hj, if_neg hj]

/-- C6: with defined inputs, `syncSelectionState` mutates only the opacity
style of each node: the bound datapoint (category label, numeric value,
selection identifier) and the other style properties of every node are
unchanged. -/
theorem sync_mutates_only_opacity {σ : Type} (includes : σ → σ → Bool)
    (document : List (BarNode σ)) (sel : List Nat) (ids : List σ) (j : Nat) :
    ((syncSelectionState includes document (some sel) (some ids)).get? j).map
        (fun b => (b.datapoint, b.display)) =
      (document.get? j).map (fun b => (b.datapoint, b.display)) := by
  rw [syncSelectionState_some_some]
  by_cases h : ids.length = 0
  · rw [if_pos h, List.get?_map]
    cases document.get? j <;> rfl
  · rw [if_neg h, foldl_barWrite_get?]
    by_cases hj : j ∈ sel
    · rw [if_pos hj]
      cases document.get? j <;> rfl
    · rw [if_neg hj]

/-- C7: the opacity a `syncSelectionState` call assigns to a mark it updates
is a pure function of the selection set, the containment predicate and the
mark's own identifier: two runs agreeing on those give that mark the same
opacity, whatever the surrounding documents, prior opacities and other marks
are. -/
theorem sync_pure_function_of_selection {σ : Type} (includes : σ → σ → Bool)
    (ids : List σ) (d1 d2 : List (BarNode σ)) (sel1 sel2 : List Nat)
    (j1 j2 : Nat) (b1 b2 : BarNode σ)
    (hj1 : j1 ∈ sel1) (hj2 : j2 ∈ sel2)
    (hb1 : d1.get? j1 = some b1) (hb2 : d2.get? j2 = some b2)
    (hid : b1.datapoint.selectionId = b2.datapoint.selectionId) :
    ∃ c1 c2,
      (syncSelectionState includes d1 (some sel1) (some ids)).get? j1 = some c1 ∧
      (syncSelectionState includes d2 (some sel2) (some ids)).get? j2 = some c2 ∧
      c1.opacity = c2.opacity := by
  rw [syncSelectionState_some_some, syncSelectionState_some_some]
  by_cases h : ids.length = 0
  · rw [if_pos h, if_pos h, List.get?_map, List.get?_map, hb1, hb2]
    exact ⟨_, _, rfl, rfl, rfl⟩
  · rw [if_neg h, if_neg h, foldl_barWrite_get?, foldl_barWrite_get?,
      if_pos hj1, if_pos hj2, hb1, hb2]
    refine ⟨_, _, rfl, rfl, ?_⟩
    simp only [barWrite, hid]

/-- Witness for C7 at a concrete input: two different documents holding a
mark with identifier 0 at different positions, with different labels and
prior opacities. -/
theorem sync_pure_function_of_selection_witness :
    ∃ c1 c2,
      (syncSelectionState (fun a b : Nat => a == b)
          [⟨⟨"A", 10, 0⟩, "block", none⟩]
          (some [0]) (some [0])).get? 0 = some c1 ∧
      (syncSelectionState (fun a b : Nat => a == b)
          [⟨⟨"B", 20, 1⟩, "none", some 1⟩, ⟨⟨"C", 30, 0⟩, "block", some (1 / 2)⟩]
          (some [1, 0]) (some [0])).get? 1 = some c2 ∧
      c1.opacity = c2.opacity :=
  sync_pure_function_of_selection (fun a b : Nat => a == b) [0]
    [⟨⟨"A", 10, 0⟩, "block", none⟩]
    [⟨⟨"B", 20, 1⟩, "none", some 1⟩, ⟨⟨"C", 30, 0⟩, "block", some (1 / 2)⟩]
    [0] [1, 0] 0 1
    ⟨⟨"A", 10, 0⟩, "block", none⟩ ⟨⟨"C", 30, 0⟩, "block", some (1 / 2)⟩
    (by decide) (by decide) rfl rfl rfl

/-- C8: every opacity `syncSelectionState` writes is 1 or 1/2: after a call
with defined inputs, each node's opacity is one of those two values or its
pre-call value (when the node was not written). -/
theorem sync_opacity_in_range {σ : Type} (includes : σ → σ → Bool)
    (document : List (BarNode σ)) (sel : List Nat) (ids : List σ)
    (j : Nat) (c : BarNode σ)
    (hc : (syncSelectionState includes document (some sel) (some ids)).get? j =
      some c) :
    c.opacity = some 1 ∨ c.opacity = some (1 / 2) ∨
      ∃ b, document.get? j = some b ∧ c.opacity = b.opacity := by
  rw [syncSelectionState_some_some] at hc
  by_cases h : ids.length = 0
  · rw [if_pos h, List.get?_map] at hc
    cases hb : document.get? j with
    | none => rw [hb] at hc; cases hc
    | some b =>
      rw [hb] at hc
      left
      rw [← Option.some.inj hc]
  · rw [if_neg h, foldl_barWrite_get?] at hc
    by_cases hj : j ∈ sel
    · rw [if_pos hj] at hc
      cases hb : document.get? j with
      | none => rw [hb] at hc; cases hc
      | some b =>
        rw [hb] at hc
        rw [← Option.some.inj hc]
        by_cases hs : ids.any (fun s => includes s b.datapoint.selectionId) = true
        · left; simp [barWrite, hs]
        · right; left; simp only [barWrite, if_neg hs]
    · rw [if_neg hj] at hc
      exact Or.inr (Or.inr ⟨c, hc, rfl⟩)

/-- Witness for C8 at a concrete input. -/
theorem sync_opacity_in_range_witness :
    (⟨⟨"A", 10, 0⟩, "block", some 1⟩ : BarNode Nat).opacity = some 1 ∨
    (⟨⟨"A", 10, 0⟩, "block", some 1⟩ : BarNode Nat).opacity = some (1 / 2) ∨
      ∃ b, ([⟨⟨"A", 10, 0⟩, "block", none⟩] : List (BarNode Nat)).get? 0 = some b ∧
        (⟨⟨"A", 10, 0⟩, "block", some 1⟩ : BarNode Nat).opacity = b.opacity :=
  sync_opacity_in_range (fun a b : Nat => a == b)
    [⟨⟨"A", 10, 0⟩, "block", none⟩] [0] [0] 0
    ⟨⟨"A", 10, 0⟩, "block", some 1⟩ (by decide)

/-- C9: only membership in the selection set matters: two non-empty
selection sets with the same members (any order, any duplication) give the
same document. -/
theorem sync_selection_set_semantics {σ : Type} (includes : σ → σ → Bool)
    (document : List (BarNode σ)) (sel : List Nat) (S1 S2 : List σ)
    (h1 : S1 ≠ []) (h2 : S2 ≠ []) (hmem : ∀ x, x ∈ S1 ↔ x ∈ S2) :
    syncSelectionState includes document (some sel) (some S1) =
      syncSelectionState includes document (some sel) (some S2) := by
  have hw : barWrite includes S1 = barWrite includes S2 := by
    funext b
    have hany : S1.any (fun s => includes s b.datapoint.selectionId) =
        S2.any (fun s => includes s b.datapoint.selectionId) := by
      rw [Bool.eq_iff_iff, List.any_eq_true, List.any_eq_true]
      constructor
      · rintro ⟨x, hx, hpx⟩
        exact ⟨x, (hmem x).mp hx, hpx⟩
      · rintro ⟨x, hx, hpx⟩
        exact ⟨x, (hmem x).mpr hx, hpx⟩
    simp only [barWrite, hany]
  rw [syncSelectionState_some_some, syncSelectionState_some_some,
    if_neg (by simpa using h1), if_neg (by simpa using h2), hw]

/-- Witness for C9 at a concrete input: `[0]` against `[0, 0]`. -/
theorem sync_selection_set_semantics_witness :
    syncSelectionState (fun a b : Nat => a == b)
        [⟨⟨"A", 10, 0⟩, "block", none⟩, ⟨⟨"B", 20, 1⟩, "block", none⟩]
        (some [0, 1]) (some [0]) =
      syncSelectionState (fun a b : Nat => a == b)
        [⟨⟨"A", 10, 0⟩, "block", none⟩, ⟨⟨"B", 20, 1⟩, "block", none⟩]
        (some [0, 1]) (some [0, 0]) :=
  sync_selection_set_semantics (fun a b : Nat => a == b)
    [⟨⟨"A", 10, 0⟩, "block", none⟩, ⟨⟨"B", 20, 1⟩, "block", none⟩]
    [0, 1] [0] [0, 0] (by decide) (by decide) (fun x => by simp)

/-- C10: `update` discards every previously rendered mark (its result does
not depend on the prior document) and builds each mark fresh with no
opacity style set, so no selection emphasis persists into the new marks. -/
theorem update_rebuilds_fresh {σ : Type} (csid : Nat → σ)
    (countries : List String) (revenue : List Int) (showBars : Bool)
    (old1 old2 : List (BarNode σ)) :
    update old1 csid countries revenue showBars =
      update old2 csid countries revenue showBars ∧
    (update old1 csid countries revenue showBars).all
      (fun b => b.opacity.isNone) = true := by
  refine ⟨rfl, ?_⟩
  rw [List.all_eq_true]
  intro b hb
  rw [update, List.mem_map] at hb
  obtain ⟨p, hp, hpb⟩ := hb
  rw [← hpb]
  rfl
